import Mathlib

/-!
Verification development for the `darcy` repository's session-scoped
asynchronous message bus (`src/src/llmgine/bus/bus.py`).

The Python code is shallowly embedded: the bus singleton's mutable state
(`_command_handlers`, `_event_handlers`, `_event_queue`, `_processing_task`)
becomes an explicit `Bus` record, the two `contextvars` (`current_session_id`,
`current_span_context`) become an explicit `Ctx` record, Python dicts become
insertion-ordered association lists, `uuid.uuid4()` becomes a deterministic
fresh-name supply, raised exceptions become `Except` values, and opaque
handler callables become natural-number identifiers whose behaviour is given
by an environment function.
-/

namespace Darcy

/-- Reserved fallback session id (the literal `"global"` in `bus.py`). -/
def globalSid : String := "global"

/-! ## Python dict embedding

Python dicts preserve insertion order; updating an existing key keeps its
position, inserting a new key appends.  `dictGet`/`dictSet`/`dictContains`
model `d.get(k)` / `d[k] = v` / `k in d`. -/

def dictGet {α β : Type} [DecidableEq α] (d : List (α × β)) (k : α) : Option β :=
  (d.find? (fun p => p.1 = k)).map Prod.snd

def dictContains {α β : Type} [DecidableEq α] (d : List (α × β)) (k : α) : Bool :=
  (dictGet d k).isSome

def dictSet {α β : Type} [DecidableEq α] (d : List (α × β)) (k : α) (v : β) : List (α × β) :=
  if dictContains d k then d.map (fun p => if p.1 = k then (k, v) else p)
  else d ++ [(k, v)]

/-! ## Runtime event-class hierarchy

From `src/src/llmgine/observability/events.py`: at runtime (the
`TYPE_CHECKING` branch is not taken) that module defines its **own** minimal
`Event` dataclass, distinct from `llmgine.messages.events.Event`, and
`ObservabilityBaseEvent`, `EventLogWrapper`, `TraceEvent`, `MetricEvent`
subclass that local `Event`.  `llmgine/messages/events.py` itself is not in
the source tree; its `Event` root is modelled from the spec (§3: abstract
message root).  `simpleEvent` is the test subclass
`SimpleEvent(messages.Event)` from `src/tests/test_bus_events.py`. -/

inductive EvType where
  | msgEvent
  | obsEvent
  | observabilityBase
  | eventLogWrapper
  | traceEvent
  | metricEvent
  | simpleEvent
  deriving DecidableEq, Repr

/-- The Python method-resolution ancestors (the class itself first),
read off the `class C(B)` declarations listed above. -/
def ancestors : EvType → List EvType
  | .msgEvent => [.msgEvent]
  | .obsEvent => [.obsEvent]
  | .observabilityBase => [.observabilityBase, .obsEvent]
  | .eventLogWrapper => [.eventLogWrapper, .obsEvent]
  | .traceEvent => [.traceEvent, .observabilityBase, .obsEvent]
  | .metricEvent => [.metricEvent, .observabilityBase, .obsEvent]
  | .simpleEvent => [.simpleEvent, .msgEvent]

/-- Python's `issubclass(t, u)`. -/
def issubclass (t u : EvType) : Bool :=
  (ancestors t).contains u


/-- A span context (`SpanContext` dataclass in
`src/src/llmgine/observability/events.py`). -/
structure SpanContext where
  traceId : String
  spanId : String
  parentSpanId : Option String
  deriving DecidableEq, Repr

/-- An event instance: its runtime class, its `session_id` attribute and its
`metadata` dict (string-valued entries suffice for the merged trace/session
keys).  Other payload fields play no role in routing. -/
structure EventInst where
  etype : EvType
  sessionId : Option String
  metadata : List (String × String)
  deriving DecidableEq, Repr

/-- A Python exception: its type name and message. -/
structure PyErr where
  ty : String
  msg : String
  deriving DecidableEq, Repr

/-- The `TypeError` a dataclass constructor raises on an unexpected keyword
argument (message rendered without Python's quoting). -/
def kwTypeError : PyErr :=
  { ty := "TypeError", msg := "unexpected keyword argument source" }

/-- The `AttributeError` from `self._event_queue.put(...)` when the queue is
still `None`. -/
def attributeError : PyErr :=
  { ty := "AttributeError", msg := "NoneType object has no attribute put" }

/-! ### Dataclass constructor surface

Field names come from `src/src/llmgine/observability/events.py` (runtime
branch): the local `Event` dataclass has `id`, `timestamp`, `metadata`,
`session_id`; `ObservabilityBaseEvent` adds `level`; `TraceEvent` adds its
trace fields; `EventLogWrapper` adds the original-event fields.  **No class
in that module has a `source` field**, while `bus.py` passes `source=` at
every `TraceEvent`/`MetricEvent`/`EventLogWrapper` construction. -/

def eventBaseFields : List String := ["id", "timestamp", "metadata", "session_id"]

def traceEventFields : List String :=
  eventBaseFields ++
    ["level", "name", "span_context", "is_start", "start_time", "end_time",
     "duration_ms", "status", "attributes"]

def eventLogWrapperFields : List String :=
  eventBaseFields ++ ["original_event", "original_event_type", "original_event_data"]

/-- Keywords passed to `TraceEvent(...)` by `start_span` (bus.py 313-319). -/
def startSpanTraceKwargs : List String :=
  ["name", "span_context", "start_time", "attributes", "source"]

/-- Keywords passed to `TraceEvent(...)` by `end_span` (bus.py 350-358). -/
def endSpanTraceKwargs : List String :=
  ["name", "span_context", "end_time", "duration_ms", "status", "attributes", "source"]

/-- Keywords passed to `EventLogWrapper(**kwargs)` by `publish`
(bus.py 623-633): `source`, the original-event fields, and `session_id`
(added because `hasattr(EventLogWrapper, "session_id")` holds — the field
has a plain default). -/
def publishWrapperKwargs : List String :=
  ["source", "original_event_type", "original_event_data", "session_id"]

/-- Python dataclass keyword construction: raises `TypeError` when a passed
keyword is not a field of the class, else yields the instance. -/
def mkEventKw (classFields kwargs : List String) (made : EventInst) :
    Except PyErr EventInst :=
  if kwargs.all (fun k => classFields.contains k) then .ok made
  else .error kwTypeError

/-- Opaque handler callables are identified by numbers; the bus stores them
unchanged (`_wrap_handler_as_async` is identity on identity-relevant
behaviour: an async handler is returned as-is and each sync handler gets its
own fresh wrapper, so distinct registrations of distinct callables stay
distinct). -/
abbrev HandlerId := Nat

/-- The singleton's mutable state.  `processingTask` tracks whether
`_processing_task` is non-`None`; the queue is `none` until `start()`
creates it. -/
structure Bus where
  commandHandlers : List (String × List (String × HandlerId))
  eventHandlers : List (String × List (EvType × List HandlerId))
  eventQueue : Option (List EventInst)
  processingTask : Bool
  initialized : Bool
  deriving DecidableEq, Repr

/-- Ambient context: the two module-level `contextvars`
(`current_session_id`, `current_span_context`) plus the deterministic
supply standing in for `uuid.uuid4()`. -/
structure Ctx where
  currentSessionId : Option String
  currentSpan : Option SpanContext
  supply : Nat
  deriving DecidableEq, Repr

/-- Deterministic stand-in for `str(uuid.uuid4())`: the `n`-th generated id. -/
def uuidGen (n : Nat) : String := "uuid-" ++ toString n

/-- Python truthiness of an optional string: `None` and `""` are falsy. -/
def truthyStr : Option String → Option String
  | some s => if s = "" then none else some s
  | none => none

/-- `session_id = session_id or "global"` in the registration methods. -/
def normalizeSessionId (s : String) : String :=
  if s = "" then globalSid else s

/-! ## Singleton construction (`__new__` / `__init__`, bus.py lines 76-106) -/

/-- The object as allocated by `__new__` before `__init__` runs:
`_initialized` is `False`; the other attributes do not exist yet (their
values here are irrelevant placeholders overwritten by `__init__`). -/
def busUninit : Bus :=
  { commandHandlers := [], eventHandlers := [], eventQueue := none,
    processingTask := false, initialized := false }

/-- `__init__`: guarded by `_initialized`; when not yet initialized it sets
empty registries, no queue, no processing task. -/
def busInit (b : Bus) : Bus :=
  if b.initialized then b
  else
    { commandHandlers := [], eventHandlers := [], eventQueue := none,
      processingTask := false, initialized := true }

/-- `MessageBus(...)`: `__new__` returns the stored instance if one exists
(allocating otherwise), then Python calls `__init__` on it.  The pair is
(the instance handed to the caller, the class-level `_instance` slot). -/
def constructMessageBus (instSlot : Option Bus) : Bus × Option Bus :=
  match instSlot with
  | some b => let b' := busInit b; (b', some b')
  | none => let b' := busInit busUninit; (b', some b')

/-! ## start (bus.py lines 128-148) -/

/-- `start()`: if no processing task is running, create the queue if absent
and spawn the processing task; otherwise warn and do nothing. -/
def startBus (b : Bus) : Bus :=
  if b.processingTask = false then
    let b₁ := if b.eventQueue = none then { b with eventQueue := some [] } else b
    { b₁ with processingTask := true }
  else b

/-! ## Handler registration (bus.py lines 192-255) -/

/-- `register_command_handler`: normalize the session id, ensure the session
key exists, then raise `ValueError` (returned as `some errorMessage`) if a
handler for the command type is already present, else store the handler. -/
def registerCommandHandler (bus : Bus) (sessionId ctype : String) (h : HandlerId) :
    Bus × Option String :=
  let sid := normalizeSessionId sessionId
  let ch := bus.commandHandlers
  let ch₁ := if dictContains ch sid then ch else dictSet ch sid []
  let m := (dictGet ch₁ sid).getD []
  if dictContains m ctype then
    ({ bus with commandHandlers := ch₁ },
     some ("Command handler for " ++ ctype ++ " already registered in session " ++ sid))
  else
    ({ bus with commandHandlers := dictSet ch₁ sid (dictSet m ctype h) }, none)

/-- `register_event_handler`: normalize the session id, ensure session and
type keys exist, append the handler to the list for that type. -/
def registerEventHandler (bus : Bus) (sessionId : String) (etype : EvType) (h : HandlerId) :
    Bus :=
  let sid := normalizeSessionId sessionId
  let d := (dictGet bus.eventHandlers sid).getD []
  let hs := (dictGet d etype).getD []
  { bus with eventHandlers := dictSet bus.eventHandlers sid (dictSet d etype (hs ++ [h])) }

/-! ## Event dispatch selection (bus.py `_handle_event`, lines 709-733)

Only the handler-selection part of `_handle_event` is embedded: the
remainder of the method (lines 735-887) sets/resets ambient context, emits
trace spans and logs handler exceptions, and does not change which handlers
are invoked — every element of `handlers_to_run` has a task created for it. -/

/-- One `for registered_type, handlers in d.items(): if issubclass(...):
handlers_to_run.extend(...)` pass.  With `dedup` set (the `"global"` pass)
the comprehension `[h for h in handlers if h not in handlers_to_run]` is
evaluated against the accumulator as it stood before the extend. -/
def collectMatching (et : EvType) (d : List (EvType × List HandlerId))
    (init : List HandlerId) (dedup : Bool) : List HandlerId :=
  d.foldl
    (fun acc p =>
      if issubclass et p.1 then
        acc ++ (if dedup then p.2.filter (fun h => ¬ acc.contains h) else p.2)
      else acc)
    init

/-- The type→handlers dict contributed by the event's own session: present
only when the event's session id is truthy (`if event_session_id and
event_session_id in self._event_handlers`).  A missing session contributes
the empty dict, over which the collection pass is the identity — exactly the
source's skipped branch. -/
def sessionDictOf (bus : Bus) (ev : EventInst) : List (EvType × List HandlerId) :=
  match truthyStr ev.sessionId with
  | some sid => (dictGet bus.eventHandlers sid).getD []
  | none => []

/-- The `handlers_to_run` computed by `_handle_event` for an event: the
event's own session's polymorphically matching handlers, then the matching
`"global"` handlers de-duplicated against that list (again, an absent
`"global"` key contributes the identity pass over the empty dict). -/
def handleEventHandlers (bus : Bus) (ev : EventInst) : List HandlerId :=
  collectMatching ev.etype ((dictGet bus.eventHandlers globalSid).getD [])
    (collectMatching ev.etype (sessionDictOf bus ev) [] false) true

/-- Whether some registration under session `sid` holds handler `h` (for any
event type). -/
def isRegisteredUnder (bus : Bus) (sid : String) (h : HandlerId) : Bool :=
  match dictGet bus.eventHandlers sid with
  | some d => d.any (fun p => p.2.contains h)
  | none => false

/-! ## publish (bus.py lines 551-646) -/

/-- Session inheritance at the top of `publish`: an event whose
`session_id` is `None` inherits a truthy ambient session id. -/
def inheritSession (ctx : Ctx) (ev : EventInst) : EventInst :=
  if ev.sessionId = none then
    match ctx.currentSessionId with
    | some s => if s = "" then ev else { ev with sessionId := some s }
    | none => ev
  else ev

/-- Metadata merging in `publish`: add trace identifiers when a current span
exists and `"trace_id"` is not already a key, and the session id when the
event's session id is truthy and `"session_id"` is not already a key. -/
def mergeMetadata (ctx : Ctx) (ev : EventInst) : EventInst :=
  let md := ev.metadata
  let md₁ :=
    match ctx.currentSpan with
    | some sp =>
        if dictContains md "trace_id" then md
        else
          let base := md ++ [("trace_id", sp.traceId), ("span_id", sp.spanId)]
          match sp.parentSpanId with
          | some p => if p = "" then base else base ++ [("parent_span_id", p)]
          | none => base
    | none => md
  let md₂ :=
    match truthyStr ev.sessionId with
    | some sid =>
        if dictContains md₁ "session_id" then md₁ else md₁ ++ [("session_id", sid)]
    | none => md₁
  { ev with metadata := md₂ }

/-- The `try:` block of `publish`.  An `EventLogWrapper` instance is put on
the queue directly (`put` on a still-`None` queue raises `AttributeError`).
Any other event is first serialized into `original_event_data` (guarded by
an inner try/except, so that cannot escape), then
`EventLogWrapper(**kwargs)` is constructed with the keywords
`source`/`original_event_type`/`original_event_data`/`session_id` — and
since `EventLogWrapper` has no `source` field this construction raises
`TypeError` before `put` is ever reached. -/
def publishTryBody (bus : Bus) (ev : EventInst) : Except PyErr Bus :=
  if issubclass ev.etype .eventLogWrapper then
    match bus.eventQueue with
    | none => .error attributeError
    | some q => .ok { bus with eventQueue := some (q ++ [ev]) }
  else
    match mkEventKw eventLogWrapperFields publishWrapperKwargs
        { etype := .eventLogWrapper, sessionId := ev.sessionId, metadata := [] } with
    | .error e => .error e
    | .ok wrapper =>
        match bus.eventQueue with
        | none => .error attributeError
        | some q => .ok { bus with eventQueue := some (q ++ [wrapper]) }

/-- `publish(event)`: inherit the session id, merge context metadata, then
attempt to enqueue; `except Exception` catches every enqueue failure and
only logs it, so `publish` always returns normally.  Returns the new bus
state and the (mutated) event object. -/
def publish (ctx : Ctx) (bus : Bus) (ev : EventInst) : Bus × EventInst :=
  let ev₁ := inheritSession ctx ev
  let ev₂ := mergeMetadata ctx ev₁
  match publishTryBody bus ev₂ with
  | .ok b => (b, ev₂)
  | .error _ => (bus, ev₂)

/-- The handler invocations produced by draining the current queue through
`_process_events` / `_handle_event` (one `asyncio.create_task(handler(event))`
per element of each event's `handlers_to_run`). -/
def drainInvocations (bus : Bus) : List HandlerId :=
  match bus.eventQueue with
  | none => []
  | some q => (q.map (handleEventHandlers bus)).flatten

/-! ## Spans (bus.py `start_span` lines 287-321, `end_span` lines 323-359)

The `TraceEvent` payload (name, attributes, timestamps) does not influence
routing or context and is not carried by the `EventInst` model; what *does*
matter is that both methods construct `TraceEvent(..., source=...)` while
the runtime `TraceEvent` has no `source` field, so both raise `TypeError`
unconditionally. -/

/-- `start_span(name, parent_context, ...)`: choose the trace id and parent
span id from the explicit parent if given, else from the ambient current
span, else start a new trace with a fresh trace id; then generate the span
id and build the `SpanContext`.  The subsequent
`TraceEvent(name=..., span_context=..., start_time=..., attributes=...,
source=...)` construction raises `TypeError` (no `source` field), so
`start_span` never reaches its `publish`/return. -/
def startSpan (ctx : Ctx) (bus : Bus) (parentContext : Option SpanContext) :
    Except PyErr (SpanContext × Ctx × Bus) :=
  let pick :=
    match parentContext with
    | some p => (p.traceId, some p.spanId, ctx.supply)
    | none =>
        match ctx.currentSpan with
        | some p => (p.traceId, some p.spanId, ctx.supply)
        | none => (uuidGen ctx.supply, none, ctx.supply + 1)
  let spanId := uuidGen pick.2.2
  let sc : SpanContext :=
    { traceId := pick.1, spanId := spanId, parentSpanId := pick.2.1 }
  let ctx₁ := { ctx with supply := pick.2.2 + 1 }
  match mkEventKw traceEventFields startSpanTraceKwargs
      { etype := .traceEvent, sessionId := none, metadata := [] } with
  | .error e => .error e
  | .ok startEvent => .ok (sc, ctx₁, (publish ctx₁ bus startEvent).1)

/-- `end_span(...)`: constructs `TraceEvent(..., source=...)` and would
publish it; the construction raises `TypeError` (no `source` field). -/
def endSpan (ctx : Ctx) (bus : Bus) : Except PyErr Bus :=
  match mkEventKw traceEventFields endSpanTraceKwargs
      { etype := .traceEvent, sessionId := none, metadata := [] } with
  | .error e => .error e
  | .ok endEvent => .ok (publish ctx bus endEvent).1

/-! ## Commands and `execute` (bus.py lines 379-549)

`llmgine/messages/commands.py` is not in the source tree.  Modelled from the
spec: a `Command` carries an opaque unique id, an optional session
identifier and request-specific fields (its runtime type routes it); a
`CommandResult` carries a success flag, optional result value, optional
error description, metadata and a back-reference to the originating
command — matching the constructor keywords used in `bus.py`
(`success=`, `original_command=`, `error=`, `metadata=`). -/

structure Command where
  id : String
  ctype : String
  sessionId : Option String
  deriving DecidableEq, Repr

structure CommandResult where
  success : Bool
  result : Option String
  error : Option String
  originalCommandId : Option String
  metadata : List (String × String)
  deriving DecidableEq, Repr

/-- What `await handler(command)` does: return a result or raise an
exception with a type name and a message. -/
inductive CmdOutcome where
  | ok (r : CommandResult)
  | exc (ty msg : String)
  deriving DecidableEq, Repr

/-- Session resolution at the top of `execute`: the command's own truthy
session id, else the ambient `current_session_id` (taken as-is: only `None`,
not `""`, triggers generation), else a fresh uuid.  Returns the resolved id
and the supply after any generation. -/
def resolvedSession (ctx : Ctx) (cmd : Command) : String × Nat :=
  let fromCmdOrCtx :=
    match truthyStr cmd.sessionId with
    | some s => some s
    | none => ctx.currentSessionId
  match fromCmdOrCtx with
  | some s => (s, ctx.supply)
  | none => (uuidGen ctx.supply, ctx.supply + 1)

/-- Handler lookup in `execute`: the resolved session's entry for the exact
command type, else the `"global"` session's entry for the exact type. -/
def lookupCommandHandler (bus : Bus) (sid ctype : String) : Option HandlerId :=
  let fromSession :=
    match dictGet bus.commandHandlers sid with
    | some m => dictGet m ctype
    | none => none
  match fromSession with
  | some h => some h
  | none =>
      match dictGet bus.commandHandlers globalSid with
      | some m => dictGet m ctype
      | none => none

/-- `execute(command)`.  Control flow from the source:
1. resolve the session id, write it back onto the command, and set the
   `current_session_id` contextvar (keeping the reset token);
2. look up the handler; when none exists, raise `ValueError` — this raise
   happens *before* the `try`/`finally`, so the contextvar set in step 1 is
   not reset on this path;
3. inside `try`: `await self.start_span(...)` — which in the program always
   raises `TypeError` (`TraceEvent` has no `source` field) before the span
   contextvar is set and before the handler is ever awaited.  The
   `except Exception` block sees `span_context is None`, skips `end_span`,
   and *returns* a `CommandResult` with `success=False` and error
   `"TypeError: ..."`; the `finally` resets the session token (the span
   token was never set).
   The remaining branches translate the source text that would run if
   `start_span` returned: set the span contextvar, await the handler; on
   success call `end_span` (which itself raises, sending control to the
   `except` block whose own `end_span` call raises again and propagates);
   on a handler exception likewise reach `except`, whose `end_span` raise
   replaces the handler's exception; the hypothetical `end_span`-succeeds
   branches are kept so the translation covers every textual path.  The
   `finally` resets both contextvars on all of them. -/
def execute (env : HandlerId → CmdOutcome) (ctx : Ctx) (bus : Bus) (cmd : Command) :
    Except String CommandResult × Ctx × Bus :=
  let rs := resolvedSession ctx cmd
  let csid := rs.1
  let cmd₁ := { cmd with sessionId := some csid }
  let sessionTokenOld := ctx.currentSessionId
  let ctx₁ : Ctx := { ctx with currentSessionId := some csid, supply := rs.2 }
  match lookupCommandHandler bus csid cmd.ctype with
  | none =>
      (.error ("No handler registered for command " ++ cmd.ctype), ctx₁, bus)
  | some h =>
      let parentContext := ctx₁.currentSpan
      match startSpan ctx₁ bus parentContext with
      | .error e =>
          -- start_span raised before current_span_context was set:
          -- except Exception → span_context is None → no end_span → return
          -- the failed result; finally → only the session token is reset.
          let failed : CommandResult :=
            { success := false, result := none,
              error := some (e.ty ++ ": " ++ e.msg),
              originalCommandId := some cmd₁.id,
              metadata := [("exception_details", "stack-trace")] }
          (.ok failed, { ctx₁ with currentSessionId := sessionTokenOld }, bus)
      | .ok sp =>
          let spanTokenOld := sp.2.1.currentSpan
          let ctx₂ := { sp.2.1 with currentSpan := some sp.1 }
          match env h with
          | .ok r =>
              match endSpan ctx₂ sp.2.2 with
              | .ok bus₂ =>
                  let ctx₃ := { ctx₂ with currentSpan := spanTokenOld,
                                          currentSessionId := sessionTokenOld }
                  (.ok r, ctx₃, bus₂)
              | .error e2 =>
                  -- end_span raised inside try; except sees span_context set
                  -- and calls end_span again, which raises again: that raise
                  -- escapes execute after the finally resets both tokens.
                  let ctx₃ := { ctx₂ with currentSpan := spanTokenOld,
                                          currentSessionId := sessionTokenOld }
                  (.error (e2.ty ++ ": " ++ e2.msg), ctx₃, sp.2.2)
          | .exc ty msg =>
              match endSpan ctx₂ sp.2.2 with
              | .error e3 =>
                  -- handler raised; except's own end_span call raises and
                  -- its TypeError escapes after the finally resets.
                  let ctx₃ := { ctx₂ with currentSpan := spanTokenOld,
                                          currentSessionId := sessionTokenOld }
                  (.error (e3.ty ++ ": " ++ e3.msg), ctx₃, sp.2.2)
              | .ok bus₂ =>
                  let failed : CommandResult :=
                    { success := false, result := none,
                      error := some (ty ++ ": " ++ msg),
                      originalCommandId := some cmd₁.id,
                      metadata := [("exception_details", "stack-trace")] }
                  let ctx₃ := { ctx₂ with currentSpan := spanTokenOld,
                                          currentSessionId := sessionTokenOld }
                  (.ok failed, ctx₃, bus₂)

/-! ## Event serialization (`_event_to_dict` lines 903-933, `_convert_value`
lines 935-966)

Python values reaching the serializer are embedded as `PyVal`.  Dicts and
lists are spine-encoded (`dictCons`/`listCons`) so that every function below
is plain structural recursion and kernel-reducible.  An arbitrary object is
`obj spec toDictVal dcf dd` where the flat `ObjSpec` describes its duck-typed
surface: whether it has a callable `to_dict` and whether that call raises
(`toDictExc` names the exception type), whether it is a dataclass
(`dcf` then holds its field-name/value pairs as a string-keyed dict spine),
whether it has an instance `__dict__` (`dd` likewise), and whether `str()`
on it raises (`strExc`), with `reprStr` the always-available `repr`.
`copy.deepcopy` inside `dataclasses.asdict` and `repr` itself are treated as
total; `asdict`'s internal pre-pass only rearranges values the factory's
`_convert_value` call then visits, so the factory is modelled as applied to
the raw field values — the raising behaviour is identical. -/

structure ObjSpec where
  hasToDict : Bool
  toDictRaises : Bool
  toDictExc : String
  hasDataclassFields : Bool
  hasDunderDict : Bool
  strRaises : Bool
  strExc : String
  strVal : String
  reprStr : String
  deriving DecidableEq, Repr

inductive PyVal where
  | pyNone
  | pyBool (b : Bool)
  | pyInt (n : Int)
  | pyFloat (lit : String)
  | pyStr (s : String)
  | pyEnum (memberName : String) (underlying : PyVal)
  | dictNil
  | dictCons (key val rest : PyVal)
  | listNil
  | listCons (head rest : PyVal)
  | obj (spec : ObjSpec) (toDictVal dcf dd : PyVal)
  deriving DecidableEq, Repr

/-- `repr(v)`: total in the model (builtin container reprs compose their
elements' reprs; an object's repr is its `reprStr`). -/
def pyReprV : PyVal → String
  | .pyNone => "None"
  | .pyBool b => if b then "True" else "False"
  | .pyInt n => toString n
  | .pyFloat lit => lit
  | .pyStr s => "'" ++ s ++ "'"
  | .pyEnum n _ => "<" ++ n ++ ">"
  | .dictNil => "\x7b\x7d"
  | .dictCons k v rest =>
      "\x7b" ++ pyReprV k ++ ": " ++ pyReprV v ++ " | " ++ pyReprV rest ++ "\x7d"
  | .listNil => "[]"
  | .listCons h t => "[" ++ pyReprV h ++ " | " ++ pyReprV t ++ "]"
  | .obj s _ _ _ => s.reprStr

/-- `str(v)`: total on builtins and enum members ("LogLevel.INFO"-style
member name); on an object it calls the object's possibly-raising
`__str__`. -/
def pyStrOf : PyVal → Except String String
  | .pyNone => .ok "None"
  | .pyBool b => .ok (if b then "True" else "False")
  | .pyInt n => .ok (toString n)
  | .pyFloat lit => .ok lit
  | .pyStr s => .ok s
  | .pyEnum n _ => .ok n
  | .dictNil => .ok "{}"
  | .dictCons k v rest => .ok (pyReprV (.dictCons k v rest))
  | .listNil => .ok "[]"
  | .listCons h t => .ok (pyReprV (.listCons h t))
  | .obj s _ _ _ => if s.strRaises then .error s.strExc else .ok s.strVal

/-- `k.startswith("_")` for a `__dict__` key (those keys are strings). -/
def underscoreKey : PyVal → Bool
  | .pyStr s => s.startsWith "_"
  | _ => false

/-- The serializer procedures, run with an explicit step budget: the
recursion is not structural because `dataclasses.asdict` applies its
converting `dict_factory` (which calls `_convert_value`) at **every nested
dataclass level** and the enclosing level then re-converts that factory
output, so calls re-visit values that are not subterms of the input.
`serRun fuel fn v` returns `none` when the budget runs out,
`some (.error e)` when the Python code raises an exception whose type name
is `e`, and `some (.ok w)` when it returns `w`.
  - `convert` is `MessageBus._convert_value`;
  - `evToDict` is `MessageBus._event_to_dict`;
  - `asdictInner` is `dataclasses._asdict_inner` under
    `asdict(event, dict_factory=lambda x: {k: self._convert_value(v) for k, v in x})`:
    a dataclass becomes the factory image of its inner-processed fields,
    lists and dicts are rebuilt elementwise, everything else is
    `copy.deepcopy`d (modelled as the identity);
  - `asdictFields` is the per-field pass at one dataclass level:
    inner-process the field value, then apply the factory's
    `_convert_value` to the **result** (field-name keys are used raw);
  - `dunderFields` is `_event_to_dict`'s `__dict__` comprehension: convert
    the values of the non-underscored entries, keys raw. -/
inductive SerFn where
  | convert
  | evToDict
  | asdictInner
  | asdictFields
  | dunderFields
  deriving DecidableEq, Repr

/-- Sequencing with Python raise semantics: stop when the budget ran out,
propagate a raised exception, continue with a returned value. -/
def serAndThen (x : Option (Except String PyVal))
    (f : PyVal → Option (Except String PyVal)) : Option (Except String PyVal) :=
  match x with
  | none => none
  | some (.error e) => some (.error e)
  | some (.ok w) => f w

def serRun : Nat → SerFn → PyVal → Option (Except String PyVal)
  | 0, _, _ => none
  | n+1, .convert, v =>
      match v with
      | .pyEnum _ u => some (.ok u)
      | .pyNone => some (.ok .pyNone)
      | .pyBool b => some (.ok (.pyBool b))
      | .pyInt i => some (.ok (.pyInt i))
      | .pyFloat lit => some (.ok (.pyFloat lit))
      | .pyStr s => some (.ok (.pyStr s))
      | .dictNil => some (.ok .dictNil)
      | .dictCons k val rest =>
          -- {str(k): self._convert_value(v) ...}: str(k) is unguarded
          match pyStrOf k with
          | .error e => some (.error e)
          | .ok ks =>
              serAndThen (serRun n .convert val) (fun v' =>
                serAndThen (serRun n .convert rest) (fun rest' =>
                  some (.ok (.dictCons (.pyStr ks) v' rest'))))
      | .listNil => some (.ok .listNil)
      | .listCons h t =>
          serAndThen (serRun n .convert h) (fun h' =>
            serAndThen (serRun n .convert t) (fun t' =>
              some (.ok (.listCons h' t'))))
      | .obj s tdv dcf dd =>
          if s.hasToDict then
            -- try: return value.to_dict(); a raise is caught and - the
            -- elif chain then being exhausted - Python returns None
            if s.toDictRaises then some (.ok .pyNone) else some (.ok tdv)
          else if s.hasDunderDict || s.hasDataclassFields then
            serRun n .evToDict (.obj s tdv dcf dd)
          else if s.strRaises then some (.ok (.pyStr s.reprStr))
          else some (.ok (.pyStr s.strVal))
  | n+1, .evToDict, v =>
      match v with
      | .obj s tdv dcf dd =>
          if s.hasToDict && !s.toDictRaises then some (.ok tdv)
          else if s.hasDataclassFields then
            -- try: return asdict(event, dict_factory);
            -- `except TypeError: pass` catches only TypeError, so other
            -- exceptions raised from inside the factory propagate
            match serRun n .asdictFields dcf with
            | some (.error e) =>
                if e = "TypeError" then
                  if s.hasDunderDict then serRun n .dunderFields dd
                  else some (.ok (.dictCons (.pyStr "event_repr")
                    (.pyStr s.reprStr) .dictNil))
                else some (.error e)
            | r => r
          else if s.hasDunderDict then serRun n .dunderFields dd
          else some (.ok (.dictCons (.pyStr "event_repr") (.pyStr s.reprStr) .dictNil))
      | .pyEnum _ _ => some (.ok .dictNil)   -- enum __dict__ holds only underscored names
      | w => some (.ok (.dictCons (.pyStr "event_repr") (.pyStr (pyReprV w)) .dictNil))
  | n+1, .asdictFields, v =>
      match v with
      | .dictCons name fv rest =>
          serAndThen (serRun n .asdictInner fv) (fun w =>
            serAndThen (serRun n .convert w) (fun u =>
              serAndThen (serRun n .asdictFields rest) (fun rest' =>
                some (.ok (.dictCons name u rest')))))
      | _ => some (.ok .dictNil)
  | n+1, .asdictInner, v =>
      match v with
      | .obj s tdv dcf dd =>
          if s.hasDataclassFields then serRun n .asdictFields dcf
          else some (.ok (.obj s tdv dcf dd))   -- copy.deepcopy, as identity
      | .dictCons k val rest =>
          serAndThen (serRun n .asdictInner k) (fun kw =>
            serAndThen (serRun n .asdictInner val) (fun vw =>
              serAndThen (serRun n .asdictInner rest) (fun rw =>
                some (.ok (.dictCons kw vw rw)))))
      | .listCons h t =>
          serAndThen (serRun n .asdictInner h) (fun h' =>
            serAndThen (serRun n .asdictInner t) (fun t' =>
              some (.ok (.listCons h' t'))))
      | w => some (.ok w)   -- deepcopy of primitives and enum members, as identity
  | n+1, .dunderFields, v =>
      match v with
      | .dictCons k val rest =>
          if underscoreKey k then serRun n .dunderFields rest
          else
            serAndThen (serRun n .convert val) (fun u =>
              serAndThen (serRun n .dunderFields rest) (fun rest' =>
                some (.ok (.dictCons k u rest'))))
      | _ => some (.ok .dictNil)

/-- `MessageBus._convert_value`, with a step budget. -/
def convertValue (fuel : Nat) (v : PyVal) : Option (Except String PyVal) :=
  serRun fuel .convert v

/-- `MessageBus._event_to_dict`, with a step budget. -/
def eventToDict (fuel : Nat) (v : PyVal) : Option (Except String PyVal) :=
  serRun fuel .evToDict v

/-- The hereditarily serializer-safe values: nowhere in the value - dict
keys and values, list elements, enum underlying values, `to_dict` results,
dataclass fields, `__dict__` entries - is a dictionary key whose `str()`
raises.  Because `asdict`'s converting factory re-visits previously
converted output at every nested dataclass level, safety must close over
every reachable subvalue. -/
def goodAll : PyVal → Bool
  | .pyEnum _ u => goodAll u
  | .dictCons k val rest => (pyStrOf k).isOk && goodAll k && goodAll val && goodAll rest
  | .listCons h t => goodAll h && goodAll t
  | .obj _ tdv dcf dd => goodAll tdv && goodAll dcf && goodAll dd
  | _ => true

/-- `serInv q r`: the run `r` did not raise, and its value (when the budget
sufficed) satisfies `q`. -/
def serInv (q : PyVal → Bool) : Option (Except String PyVal) → Bool
  | none => true
  | some (.error _) => false
  | some (.ok w) => q w

/-- "The run did not raise." -/
def serOk : Option (Except String PyVal) → Bool := serInv (fun _ => true)

/-- Dict-shaped values - what `asdictFields` always produces. -/
def isDictShaped : PyVal → Bool
  | .dictCons _ _ _ => true
  | .dictNil => true
  | _ => false

/-! ## Concrete fixtures used by witnesses and counterexamples -/

/-- Ambient context at process start: no session, no span. -/
def ctx0 : Ctx := { currentSessionId := none, currentSpan := none, supply := 0 }

/-- A freshly constructed (initialized, not started) bus. -/
def freshBus : Bus := busInit busUninit

/-- A started bus (queue created, processing task running). -/
def startedBus : Bus := startBus freshBus

def c2Env : HandlerId → CmdOutcome := fun _ => .exc "ValueError" "boom"

def c2Cmd : Command := { id := "cmd-2", ctype := "UnroutedCommand", sessionId := some "s2" }

def c3Env : HandlerId → CmdOutcome := fun _ => .exc "ValueError" "boom"

def c3Cmd : Command := { id := "cmd-3", ctype := "EchoCommand", sessionId := some "s3" }

def c3Bus : Bus := (registerCommandHandler startedBus "s3" "EchoCommand" 11).1

def c5Bus : Bus := (registerCommandHandler freshBus "s5" "PingCommand" 21).1

def c8Bus : Bus := registerEventHandler (registerCommandHandler startedBus "s8" "PingCommand" 31).1 "s8" .simpleEvent 32

def c6Bus : Bus :=
  registerEventHandler (registerEventHandler startedBus "alpha" .msgEvent 5)
    "beta" .simpleEvent 6

def c6Ev : EventInst := { etype := .simpleEvent, sessionId := some "alpha", metadata := [] }

def c1Bus : Bus := registerEventHandler startedBus globalSid .simpleEvent 7

def c1Ev : EventInst := { etype := .simpleEvent, sessionId := some "sess-1", metadata := [] }

def c10Ev : EventInst := { etype := .simpleEvent, sessionId := none, metadata := [] }

/-- A mapping key that is an object whose `__str__` raises. -/
def c9BadKey : PyVal :=
  .obj
    { hasToDict := false, toDictRaises := false, toDictExc := "",
      hasDataclassFields := false, hasDunderDict := false,
      strRaises := true, strExc := "RuntimeError", strVal := "",
      reprStr := "<Unprintable>" }
    .pyNone .pyNone .pyNone

/-- A dict whose (single) key is `c9BadKey`. -/
def c9Bad : PyVal := .dictCons c9BadKey (.pyInt 1) .dictNil

/-- A nontrivial serializer-safe value: a dict with an int key, a list with
an enum member, and a dataclass-like object nested inside. -/
def c9Good : PyVal :=
  .dictCons (.pyInt 3)
    (.listCons (.pyEnum "LogLevel.INFO" (.pyStr "info")) .listNil)
    (.dictCons (.pyStr "evt")
      (.obj
        { hasToDict := false, toDictRaises := false, toDictExc := "",
          hasDataclassFields := true, hasDunderDict := true,
          strRaises := false, strExc := "", strVal := "obj", reprStr := "<obj>" }
        .pyNone
        (.dictCons (.pyStr "level") (.pyEnum "LogLevel.INFO" (.pyStr "info")) .dictNil)
        (.dictCons (.pyStr "_private") (.pyNone) .dictNil))
      .dictNil)

/-! ## Claims -/

/-- C2: with no command handler registered for the command's exact type
under its resolved session id nor under `"global"`, `execute` raises the
no-handler `ValueError` synchronously instead of returning a
`CommandResult`. -/
theorem C2_execute_no_handler_raises (env : HandlerId → CmdOutcome) (ctx : Ctx)
    (bus : Bus) (cmd : Command)
    (h : lookupCommandHandler bus (resolvedSession ctx cmd).1 cmd.ctype = none) :
    (execute env ctx bus cmd).1 =
      .error ("No handler registered for command " ++ cmd.ctype) := by
  simp only [execute]
  rw [h]

theorem C2_witness :
    lookupCommandHandler freshBus (resolvedSession ctx0 c2Cmd).1 c2Cmd.ctype = none ∧
    (execute c2Env ctx0 freshBus c2Cmd).1 =
      .error ("No handler registered for command " ++ c2Cmd.ctype) :=
  ⟨by decide, C2_execute_no_handler_raises c2Env ctx0 freshBus c2Cmd (by decide)⟩

/-- `start_span` always raises (helper used by proofs below): `"source"` is
not among `TraceEvent`'s runtime fields. -/
theorem startSpan_raises (ctx : Ctx) (bus : Bus) (p? : Option SpanContext) :
    startSpan ctx bus p? = .error kwTypeError := rfl

/-- `end_span` always raises for the same reason. -/
theorem endSpan_raises (ctx : Ctx) (bus : Bus) :
    endSpan ctx bus = .error kwTypeError := rfl

/-- C3 (evaluation at the failing input): handler `11` is registered for
`EchoCommand` in session `"s3"` and its behaviour raises
`ValueError("boom")` — yet `execute` returns a failed `CommandResult` whose
error is the `TypeError` from `start_span`'s
`TraceEvent(..., source=...)` construction (bus.py:444), which is raised
inside the `try` *before* the handler await at line 466.  The handler is
never invoked and no error string containing `"ValueError"` and `"boom"`
can be produced, contradicting the claim (and the repository's own
command-handling tests, which expect handler results). -/
theorem C3_startSpan_TypeError_preempts_handler :
    (execute c3Env ctx0 c3Bus c3Cmd).1 =
      .ok { success := false, result := none,
            error := some "TypeError: unexpected keyword argument source",
            originalCommandId := some c3Cmd.id,
            metadata := [("exception_details", "stack-trace")] } := rfl

/-- C4 (counterexample): `execute`'s no-handler `ValueError` is raised after
`current_session_id.set(...)` but before the `try`/`finally`, so on that
exit path the ambient current-session value is *not* restored: with no
ambient session before the call and a command carrying session `"s1"`, the
ambient session after the raising call is `some "s1"`, not the pre-call
`none`. -/
theorem C4_counterexample :
    ¬ ((execute c2Env ctx0 freshBus
          { id := "cmd-4", ctype := "UnroutedCommand", sessionId := some "s1" }).2.1).currentSessionId
        = ctx0.currentSessionId := by
  decide

/-- C4 (amended): on every exit through the `try`/`finally` — normal return
of a result and return of the failed `CommandResult` after an exception
inside the `try` (in the program as it stands, `start_span`'s `TypeError`;
hypothetically, a handler exception) — both ambient values are restored to
their pre-call values: the `finally` resets the session token and the span
contextvar is untouched unless `start_span` succeeds.  On the no-handler
raise the ambient span is unchanged but the ambient session is left set to
the command's resolved session id. -/
theorem C4_context_restoration (env : HandlerId → CmdOutcome) (ctx : Ctx)
    (bus : Bus) (cmd : Command) :
    match lookupCommandHandler bus (resolvedSession ctx cmd).1 cmd.ctype with
    | some _ =>
        ((execute env ctx bus cmd).2.1).currentSessionId = ctx.currentSessionId ∧
        ((execute env ctx bus cmd).2.1).currentSpan = ctx.currentSpan
    | none =>
        ((execute env ctx bus cmd).2.1).currentSpan = ctx.currentSpan ∧
        ((execute env ctx bus cmd).2.1).currentSessionId =
          some (resolvedSession ctx cmd).1 := by
  cases hl : lookupCommandHandler bus (resolvedSession ctx cmd).1 cmd.ctype with
  | none => simp [execute, hl]
  | some h => simp [execute, hl, startSpan_raises]

/-- C5: a second `register_command_handler` for an occupied (session, type)
pair raises (whatever handler is being added), and the original registration
survives untouched — indeed the whole bus state is unchanged. -/
theorem C5_duplicate_registration_rejected (bus : Bus) (S T : String)
    (h h₀ : HandlerId)
    (hreg : dictGet ((dictGet bus.commandHandlers (normalizeSessionId S)).getD []) T
      = some h₀) :
    (registerCommandHandler bus S T h).2.isSome = true ∧
    (registerCommandHandler bus S T h).1 = bus ∧
    dictGet ((dictGet (registerCommandHandler bus S T h).1.commandHandlers
      (normalizeSessionId S)).getD []) T = some h₀ := by
  have hsid : dictContains bus.commandHandlers (normalizeSessionId S) = true := by
    unfold dictContains
    cases hg : dictGet bus.commandHandlers (normalizeSessionId S) with
    | none => rw [hg] at hreg; simp [dictGet] at hreg
    | some m => simp
  have hdup :
      dictContains ((dictGet bus.commandHandlers (normalizeSessionId S)).getD []) T
        = true := by
    unfold dictContains; rw [hreg]; rfl
  constructor
  · simp only [registerCommandHandler, hsid, if_true, hdup]
    rfl
  constructor
  · simp only [registerCommandHandler, hsid, if_true, hdup]
  · simp only [registerCommandHandler, hsid, if_true, hdup]
    exact hreg

theorem C5_witness :
    dictGet ((dictGet c5Bus.commandHandlers (normalizeSessionId "s5")).getD [])
      "PingCommand" = some 21 ∧
    ((registerCommandHandler c5Bus "s5" "PingCommand" 22).2.isSome = true ∧
      (registerCommandHandler c5Bus "s5" "PingCommand" 22).1 = c5Bus ∧
      dictGet ((dictGet (registerCommandHandler c5Bus "s5" "PingCommand" 22).1.commandHandlers
        (normalizeSessionId "s5")).getD []) "PingCommand" = some 21) :=
  ⟨by decide, C5_duplicate_registration_rejected c5Bus "s5" "PingCommand" 22 21 (by decide)⟩

/-- C7 (evaluation of the failing behaviour): `start_span` never returns a
`SpanContext` at all — with any parent argument and any ambient state it
raises the `TypeError` from constructing
`TraceEvent(name=..., span_context=..., start_time=..., attributes=...,
source=...)` (bus.py:313-319), because the runtime `TraceEvent` has no
`source` field.  The claim's parentage property describes the intended
return value that the construction bug makes unreachable. -/
theorem C7_startSpan_never_returns (ctx : Ctx) (bus : Bus) (p? : Option SpanContext) :
    startSpan ctx bus p? = .error kwTypeError ∧ kwTypeError.ty = "TypeError" :=
  ⟨rfl, rfl⟩

/-- C8: constructing `MessageBus` again returns the instance stored by the
first construction and the `_initialized` guard skips re-initialization, so
the registries, queue and processing-task state are untouched; a first
construction stores the instance it returns, already initialized. -/
theorem C8_singleton_construction (b : Bus) (hb : b.initialized = true) :
    constructMessageBus (some b) = (b, some b) ∧
    ((constructMessageBus none).1).initialized = true ∧
    (constructMessageBus none).2 = some (constructMessageBus none).1 := by
  refine ⟨?_, by simp [constructMessageBus, busInit, busUninit], rfl⟩
  simp [constructMessageBus, busInit, hb]

theorem C8_witness :
    c8Bus.initialized = true ∧
    (constructMessageBus (some c8Bus) = (c8Bus, some c8Bus) ∧
      ((constructMessageBus none).1).initialized = true ∧
      (constructMessageBus none).2 = some (constructMessageBus none).1) :=
  ⟨by decide, C8_singleton_construction c8Bus (by decide)⟩

/-- Membership in one `extend` pass over a session's type→handlers dict:
every collected handler was already in the accumulator or is stored in some
entry of the dict. -/
theorem mem_collectMatching {et : EvType} {d : List (EvType × List HandlerId)}
    {init : List HandlerId} {dd : Bool} {h : HandlerId}
    (hm : h ∈ collectMatching et d init dd) :
    h ∈ init ∨ ∃ p ∈ d, h ∈ p.2 := by
  induction d generalizing init with
  | nil => exact Or.inl hm
  | cons p rest ih =>
      rw [collectMatching, List.foldl_cons] at hm
      rcases ih hm with hin | ⟨q, hq, hqmem⟩
      · by_cases hsub : issubclass et p.1 = true
        · rw [if_pos hsub] at hin
          rcases List.mem_append.mp hin with hl | hr
          · exact Or.inl hl
          · refine Or.inr ⟨p, List.mem_cons_self p rest, ?_⟩
            cases dd with
            | true => simpa using List.mem_of_mem_filter hr
            | false => simpa using hr
        · rw [if_neg hsub] at hin
          exact Or.inl hin
      · exact Or.inr ⟨q, List.mem_cons_of_mem p hq, hqmem⟩

/-- C6: `_handle_event` draws `handlers_to_run` only from the registrations
under the event's own session id and those under `"global"`; a handler
registered only under a different session is never invoked for the event. -/
theorem C6_session_isolation (bus : Bus) (ev : EventInst) (h : HandlerId)
    (hm : h ∈ handleEventHandlers bus ev) :
    (∃ sid, truthyStr ev.sessionId = some sid ∧ isRegisteredUnder bus sid h = true) ∨
    isRegisteredUnder bus globalSid h = true := by
  have regOf :
      ∀ sid : String, (∃ p ∈ (dictGet bus.eventHandlers sid).getD [], h ∈ p.2) →
        isRegisteredUnder bus sid h = true := by
    intro sid hex
    unfold isRegisteredUnder
    cases hd : dictGet bus.eventHandlers sid with
    | none => rw [hd] at hex; simp at hex
    | some d =>
        rw [hd] at hex
        rcases hex with ⟨p, hp, hpm⟩
        simp only [List.any_eq_true]
        exact ⟨p, hp, by simpa using hpm⟩
  unfold handleEventHandlers at hm
  rcases mem_collectMatching hm with hin | hmem
  · rcases mem_collectMatching hin with hin' | hmem'
    · simp at hin'
    · left
      cases hts : truthyStr ev.sessionId with
      | none => unfold sessionDictOf at hmem'; rw [hts] at hmem'; simp at hmem'
      | some sid =>
          unfold sessionDictOf at hmem'
          rw [hts] at hmem'
          exact ⟨sid, rfl, regOf sid hmem'⟩
  · exact Or.inr (regOf globalSid hmem)

theorem C6_witness :
    5 ∈ handleEventHandlers c6Bus c6Ev ∧
    ((∃ sid, truthyStr c6Ev.sessionId = some sid ∧
        isRegisteredUnder c6Bus sid 5 = true) ∨
      isRegisteredUnder c6Bus globalSid 5 = true) :=
  ⟨by decide, C6_session_isolation c6Bus c6Ev 5 (by decide)⟩

/-! ## C1: what `publish` + the processing loop actually invoke -/

/-- C1 (evaluation at the failing input): with handler `7` registered under
`"global"` for the test event type `SimpleEvent` on a started bus,
publishing one event whose runtime type is `SimpleEvent` invokes **no**
handler at all and enqueues nothing — inside `publish`'s `try`, the
`EventLogWrapper(**kwargs)` construction (bus.py:633, kwargs including
`source`) raises `TypeError` before `self._event_queue.put` is reached, the
`except Exception` swallows it, and the event is dropped.  The claim (and
the repository's own test `test_publish_simple_event`) expects exactly one
invocation of handler `7`. -/
theorem C1_published_event_reaches_no_typed_handler :
    publishTryBody c1Bus (mergeMetadata ctx0 (inheritSession ctx0 c1Ev)) =
      .error kwTypeError ∧
    (publish ctx0 c1Bus c1Ev).1 = c1Bus ∧
    drainInvocations (publish ctx0 c1Bus c1Ev).1 = [] :=
  ⟨rfl, rfl, rfl⟩

/-- C10 (counterexample): for an ordinary (non-`EventLogWrapper`) event
published before `start()`, the failure inside `publish`'s `try` is **not**
the enqueue failure the claim describes: the `TypeError` from
`EventLogWrapper(**kwargs)` (no `source` field) is raised before
`self._event_queue.put` — and hence before the still-`None` queue could
raise `AttributeError`. -/
theorem C10_counterexample :
    publishTryBody freshBus (mergeMetadata ctx0 (inheritSession ctx0 c10Ev)) =
      .error kwTypeError ∧
    kwTypeError ≠ attributeError :=
  ⟨rfl, by decide⟩

/-- C10 (amended): publishing before `start()` has created the queue
returns normally without raising for every event: the failure inside the
`try` — the wrapper-construction `TypeError` for ordinary events (raised
before any queue access), or the `AttributeError` from putting on the
missing queue for events that are already `EventLogWrapper` instances — is
caught by `except Exception` and logged, the bus is unchanged, and the
event is silently dropped: never enqueued, and no handler is ever invoked
for it. -/
theorem C10_publish_before_start_drops_event (ctx : Ctx) (bus : Bus)
    (ev : EventInst) (hq : bus.eventQueue = none) :
    (∃ e, publishTryBody bus (mergeMetadata ctx (inheritSession ctx ev)) = .error e ∧
      (e = kwTypeError ∨ e = attributeError)) ∧
    (publish ctx bus ev).1 = bus ∧
    drainInvocations (publish ctx bus ev).1 = [] := by
  have hbody : ∃ e,
      publishTryBody bus (mergeMetadata ctx (inheritSession ctx ev)) = .error e ∧
      (e = kwTypeError ∨ e = attributeError) := by
    unfold publishTryBody
    by_cases hw : issubclass (mergeMetadata ctx (inheritSession ctx ev)).etype
        .eventLogWrapper = true
    · rw [if_pos hw, hq]
      exact ⟨attributeError, rfl, Or.inr rfl⟩
    · rw [if_neg hw]
      exact ⟨kwTypeError, rfl, Or.inl rfl⟩
  obtain ⟨e, he, hor⟩ := hbody
  refine ⟨⟨e, he, hor⟩, ?_, ?_⟩
  · simp only [publish, he]
  · simp only [publish, he]
    unfold drainInvocations
    rw [hq]

theorem C10_witness :
    freshBus.eventQueue = none ∧
    ((∃ e, publishTryBody freshBus (mergeMetadata ctx0 (inheritSession ctx0 c10Ev)) =
        .error e ∧ (e = kwTypeError ∨ e = attributeError)) ∧
      (publish ctx0 freshBus c10Ev).1 = freshBus ∧
      drainInvocations (publish ctx0 freshBus c10Ev).1 = []) :=
  ⟨by decide, C10_publish_before_start_drops_event ctx0 freshBus c10Ev (by decide)⟩

/-! ## C9: the serializers and their raise behaviour -/

@[simp] theorem isOk_ok {ε α : Type} (x : α) : (Except.ok x : Except ε α).isOk = true := rfl

@[simp] theorem isOk_error {ε α : Type} (e : ε) :
    (Except.error e : Except ε α).isOk = false := rfl

/-- C9 (counterexample): `_convert_value` is *not* total: its dict branch
computes `str(k)` for every key outside any try/except, so a mapping whose
key is an object with a raising `__str__` makes `_convert_value` raise -
refuting "return a value without raising" for every input value. -/
theorem C9_counterexample : convertValue 8 c9Bad = some (.error "RuntimeError") := rfl

@[simp] theorem serInv_none (q : PyVal → Bool) : serInv q none = true := rfl

@[simp] theorem serInv_some_ok (q : PyVal → Bool) (w : PyVal) :
    serInv q (some (.ok w)) = q w := rfl

@[simp] theorem serInv_some_error (q : PyVal → Bool) (e : String) :
    serInv q (some (.error e)) = false := rfl

/-- Chaining preserves `serInv` when the continuation does. -/
theorem serInv_serAndThen {q1 q2 : PyVal → Bool} {x : Option (Except String PyVal)}
    {f : PyVal → Option (Except String PyVal)}
    (hx : serInv q1 x = true) (hf : ∀ w, q1 w = true → serInv q2 (f w) = true) :
    serInv q2 (serAndThen x f) = true := by
  cases x with
  | none => rfl
  | some r =>
      cases r with
      | error e => simp at hx
      | ok w => exact hf w (by simpa using hx)

theorem serInv_mono {q1 q2 : PyVal → Bool} {x : Option (Except String PyVal)}
    (h : ∀ w, q1 w = true → q2 w = true) (hx : serInv q1 x = true) :
    serInv q2 x = true := by
  cases x with
  | none => rfl
  | some r =>
      cases r with
      | error e => simp at hx
      | ok w => simpa using h w (by simpa using hx)

theorem serInv_and {q1 q2 : PyVal → Bool} {x : Option (Except String PyVal)}
    (h1 : serInv q1 x = true) (h2 : serInv q2 x = true) :
    serInv (fun w => q1 w && q2 w) x = true := by
  cases x with
  | none => rfl
  | some r =>
      cases r with
      | error e => simp at h1
      | ok w =>
          simp at h1 h2 ⊢
          exact ⟨h1, h2⟩

theorem pyStrOf_isOk_of_isDictShaped {w : PyVal} (h : isDictShaped w = true) :
    (pyStrOf w).isOk = true := by
  cases w <;> simp [isDictShaped, pyStrOf] at h ⊢

/-- The serializer invariant, by induction on the step budget: on
hereditarily safe values no procedure ever raises and every produced value
is hereditarily safe again (which is what makes the re-conversion at nested
dataclass levels safe); additionally `asdictInner` preserves
stringifiability of keys (it maps a leaf to itself, a dataclass to a dict
and containers to containers), and `asdictFields` always produces a
dict-shaped value. -/
theorem serRun_invariant : ∀ n : Nat,
    (∀ fn v, goodAll v = true → serInv goodAll (serRun n fn v) = true) ∧
    (∀ v, goodAll v = true → (pyStrOf v).isOk = true →
      serInv (fun w => (pyStrOf w).isOk) (serRun n SerFn.asdictInner v) = true) ∧
    (∀ v, goodAll v = true →
      serInv isDictShaped (serRun n SerFn.asdictFields v) = true) := by
  intro n
  induction n with
  | zero => exact ⟨fun _ _ _ => rfl, fun _ _ _ => rfl, fun _ _ => rfl⟩
  | succ n ih =>
      obtain ⟨ihA, ihK, ihD⟩ := ih
      refine ⟨?_, ?_, ?_⟩
      · intro fn v hv
        cases fn with
        | convert =>
            cases v with
            | pyEnum nm u => simpa [serRun, goodAll] using hv
            | pyNone => simp [serRun, goodAll]
            | pyBool b => simp [serRun, goodAll]
            | pyInt i => simp [serRun, goodAll]
            | pyFloat lit => simp [serRun, goodAll]
            | pyStr s => simp [serRun, goodAll]
            | dictNil => simp [serRun, goodAll]
            | listNil => simp [serRun, goodAll]
            | dictCons k val rest =>
                simp only [goodAll, Bool.and_eq_true] at hv
                obtain ⟨⟨⟨hk, hkg⟩, hvg⟩, hrg⟩ := hv
                cases hks : pyStrOf k with
                | error e => rw [hks] at hk; simp at hk
                | ok ks =>
                    simp only [serRun, hks]
                    refine serInv_serAndThen (ihA .convert val hvg) (fun v' hv' => ?_)
                    refine serInv_serAndThen (ihA .convert rest hrg) (fun rest' hr' => ?_)
                    simp [goodAll, pyStrOf, hv', hr']
            | listCons h t =>
                simp only [goodAll, Bool.and_eq_true] at hv
                obtain ⟨hh, ht⟩ := hv
                simp only [serRun]
                refine serInv_serAndThen (ihA .convert h hh) (fun h' hh' => ?_)
                refine serInv_serAndThen (ihA .convert t ht) (fun t' ht' => ?_)
                simp [goodAll, hh', ht']
            | obj s tdv dcf dd =>
                simp only [goodAll, Bool.and_eq_true] at hv
                obtain ⟨⟨htd, hdcf⟩, hdd⟩ := hv
                by_cases h1 : s.hasToDict = true
                · by_cases h2 : s.toDictRaises = true
                  · simp [serRun, h1, h2, goodAll]
                  · simp [serRun, h1, h2, htd]
                · by_cases h34 : (s.hasDunderDict || s.hasDataclassFields) = true
                  · simp only [serRun, h1, h34, if_true, if_false, Bool.false_eq_true]
                    simpa [h1, h34] using
                      ihA .evToDict (.obj s tdv dcf dd)
                        (by simp [goodAll, htd, hdcf, hdd])
                  · by_cases h5 : s.strRaises = true <;>
                      simp [serRun, h1, h34, h5, goodAll]
        | evToDict =>
            cases v with
            | obj s tdv dcf dd =>
                simp only [goodAll, Bool.and_eq_true] at hv
                obtain ⟨⟨htd, hdcf⟩, hdd⟩ := hv
                by_cases h12 : (s.hasToDict && !s.toDictRaises) = true
                · simp [serRun, h12, htd]
                · by_cases h3 : s.hasDataclassFields = true
                  · have hA := ihA .asdictFields dcf hdcf
                    cases hr : serRun n .asdictFields dcf with
                    | none => simp [serRun, h12, h3, hr]
                    | some r =>
                        cases r with
                        | error e => rw [hr] at hA; simp at hA
                        | ok w =>
                            have hw : goodAll w = true := by
                              rw [hr] at hA; simpa using hA
                            simp [serRun, h12, h3, hr, hw]
                  · by_cases h4 : s.hasDunderDict = true
                    · simp only [serRun, h12, h3, h4]
                      simpa [h12, h3, h4] using ihA .dunderFields dd hdd
                    · simp [serRun, h12, h3, h4, goodAll, pyStrOf]
            | pyEnum nm u => simp [serRun, goodAll]
            | pyNone => simp [serRun, goodAll, pyStrOf]
            | pyBool b => simp [serRun, goodAll, pyStrOf]
            | pyInt i => simp [serRun, goodAll, pyStrOf]
            | pyFloat lit => simp [serRun, goodAll, pyStrOf]
            | pyStr s => simp [serRun, goodAll, pyStrOf]
            | dictNil => simp [serRun, goodAll, pyStrOf]
            | dictCons k val rest => simp [serRun, goodAll, pyStrOf]
            | listNil => simp [serRun, goodAll, pyStrOf]
            | listCons h t => simp [serRun, goodAll, pyStrOf]
        | asdictFields =>
            cases v with
            | dictCons name fv rest =>
                simp only [goodAll, Bool.and_eq_true] at hv
                obtain ⟨⟨⟨hk, hkg⟩, hvg⟩, hrg⟩ := hv
                simp only [serRun]
                refine serInv_serAndThen (ihA .asdictInner fv hvg) (fun w hw => ?_)
                refine serInv_serAndThen (ihA .convert w hw) (fun u hu => ?_)
                refine serInv_serAndThen (ihA .asdictFields rest hrg) (fun rest' hr' => ?_)
                simp [goodAll, hk, hkg, hu, hr']
            | pyEnum nm u => simp [serRun, goodAll]
            | pyNone => simp [serRun, goodAll]
            | pyBool b => simp [serRun, goodAll]
            | pyInt i => simp [serRun, goodAll]
            | pyFloat lit => simp [serRun, goodAll]
            | pyStr s => simp [serRun, goodAll]
            | dictNil => simp [serRun, goodAll]
            | listNil => simp [serRun, goodAll]
            | listCons h t => simp [serRun, goodAll]
            | obj s tdv dcf dd => simp [serRun, goodAll]
        | asdictInner =>
            cases v with
            | obj s tdv dcf dd =>
                simp only [goodAll, Bool.and_eq_true] at hv
                obtain ⟨⟨htd, hdcf⟩, hdd⟩ := hv
                by_cases hdc : s.hasDataclassFields = true
                · simp only [serRun, hdc, if_true]
                  simpa [hdc] using ihA .asdictFields dcf hdcf
                · simp [serRun, hdc, goodAll, htd, hdcf, hdd]
            | dictCons k val rest =>
                simp only [goodAll, Bool.and_eq_true] at hv
                obtain ⟨⟨⟨hk, hkg⟩, hvg⟩, hrg⟩ := hv
                simp only [serRun]
                refine serInv_serAndThen
                  (serInv_and (ihA .asdictInner k hkg) (ihK k hkg hk))
                  (fun kw hkw => ?_)
                simp only [Bool.and_eq_true] at hkw
                obtain ⟨hkwg, hkwo⟩ := hkw
                refine serInv_serAndThen (ihA .asdictInner val hvg) (fun vw hvw => ?_)
                refine serInv_serAndThen (ihA .asdictInner rest hrg) (fun rw hrw => ?_)
                simp [goodAll, hkwo, hkwg, hvw, hrw]
            | listCons h t =>
                simp only [goodAll, Bool.and_eq_true] at hv
                obtain ⟨hh, ht⟩ := hv
                simp only [serRun]
                refine serInv_serAndThen (ihA .asdictInner h hh) (fun h' hh' => ?_)
                refine serInv_serAndThen (ihA .asdictInner t ht) (fun t' ht' => ?_)
                simp [goodAll, hh', ht']
            | pyEnum nm u => simpa [serRun, goodAll] using hv
            | pyNone => simp [serRun, goodAll]
            | pyBool b => simp [serRun, goodAll]
            | pyInt i => simp [serRun, goodAll]
            | pyFloat lit => simp [serRun, goodAll]
            | pyStr s => simp [serRun, goodAll]
            | dictNil => simp [serRun, goodAll]
            | listNil => simp [serRun, goodAll]
        | dunderFields =>
            cases v with
            | dictCons k val rest =>
                simp only [goodAll, Bool.and_eq_true] at hv
                obtain ⟨⟨⟨hk, hkg⟩, hvg⟩, hrg⟩ := hv
                by_cases hu : underscoreKey k = true
                · simp only [serRun, hu, if_true]
                  simpa [hu] using ihA .dunderFields rest hrg
                · simp only [serRun, hu, if_false, Bool.false_eq_true]
                  refine serInv_serAndThen (ihA .convert val hvg) (fun u hu' => ?_)
                  refine serInv_serAndThen (ihA .dunderFields rest hrg) (fun rest' hr' => ?_)
                  simp [goodAll, hk, hkg, hu', hr']
            | pyEnum nm u => simp [serRun, goodAll]
            | pyNone => simp [serRun, goodAll]
            | pyBool b => simp [serRun, goodAll]
            | pyInt i => simp [serRun, goodAll]
            | pyFloat lit => simp [serRun, goodAll]
            | pyStr s => simp [serRun, goodAll]
            | dictNil => simp [serRun, goodAll]
            | listNil => simp [serRun, goodAll]
            | listCons h t => simp [serRun, goodAll]
            | obj s tdv dcf dd => simp [serRun, goodAll]
      · intro v hv hkey
        cases v with
        | obj s tdv dcf dd =>
            simp only [goodAll, Bool.and_eq_true] at hv
            obtain ⟨⟨htd, hdcf⟩, hdd⟩ := hv
            by_cases hdc : s.hasDataclassFields = true
            · simp only [serRun, hdc, if_true]
              exact serInv_mono (fun w hw => pyStrOf_isOk_of_isDictShaped hw)
                (ihD dcf hdcf)
            · simpa [serRun, hdc] using hkey
        | dictCons k val rest =>
            simp only [goodAll, Bool.and_eq_true] at hv
            obtain ⟨⟨⟨hk, hkg⟩, hvg⟩, hrg⟩ := hv
            simp only [serRun]
            refine serInv_serAndThen (ihA .asdictInner k hkg) (fun kw hkw => ?_)
            refine serInv_serAndThen (ihA .asdictInner val hvg) (fun vw hvw => ?_)
            refine serInv_serAndThen (ihA .asdictInner rest hrg) (fun rw hrw => ?_)
            simp [pyStrOf]
        | listCons h t =>
            simp only [goodAll, Bool.and_eq_true] at hv
            obtain ⟨hh, ht⟩ := hv
            simp only [serRun]
            refine serInv_serAndThen (ihA .asdictInner h hh) (fun h' hh' => ?_)
            refine serInv_serAndThen (ihA .asdictInner t ht) (fun t' ht' => ?_)
            simp [pyStrOf]
        | pyEnum nm u => simpa [serRun] using hkey
        | pyNone => simpa [serRun] using hkey
        | pyBool b => simpa [serRun] using hkey
        | pyInt i => simpa [serRun] using hkey
        | pyFloat lit => simpa [serRun] using hkey
        | pyStr s => simpa [serRun] using hkey
        | dictNil => simpa [serRun] using hkey
        | listNil => simpa [serRun] using hkey
      · intro v hv
        cases v with
        | dictCons name fv rest =>
            simp only [goodAll, Bool.and_eq_true] at hv
            obtain ⟨⟨⟨hk, hkg⟩, hvg⟩, hrg⟩ := hv
            simp only [serRun]
            refine serInv_serAndThen (ihA .asdictInner fv hvg) (fun w hw => ?_)
            refine serInv_serAndThen (ihA .convert w hw) (fun u hu => ?_)
            refine serInv_serAndThen (ihA .asdictFields rest hrg) (fun rest' hr' => ?_)
            simp [isDictShaped]
        | pyEnum nm u => simp [serRun, isDictShaped]
        | pyNone => simp [serRun, isDictShaped]
        | pyBool b => simp [serRun, isDictShaped]
        | pyInt i => simp [serRun, isDictShaped]
        | pyFloat lit => simp [serRun, isDictShaped]
        | pyStr s => simp [serRun, isDictShaped]
        | dictNil => simp [serRun, isDictShaped]
        | listNil => simp [serRun, isDictShaped]
        | listCons h t => simp [serRun, isDictShaped]
        | obj s tdv dcf dd => simp [serRun, isDictShaped]

/-- C9 (amended): `_convert_value` and `_event_to_dict` never raise - for
any step budget, the evaluation never produces an exception - for every
input value in whose entire reachable structure (dict keys and values, list
elements, enum underlying values, `to_dict` results, dataclass fields,
`__dict__` entries) no dictionary key is an object whose `str()` raises.
The hereditary closure is necessary because `dataclasses.asdict`'s
converting factory re-visits already-converted output (including raw
`to_dict` results) at every nested dataclass level; the one unguarded raise
site is `str(k)` in `_convert_value`'s dict branch, exhibited by the
counterexample. -/
theorem C9_serializers_never_raise (v : PyVal) (fuel : Nat) (hv : goodAll v = true) :
    serOk (convertValue fuel v) = true ∧ serOk (eventToDict fuel v) = true :=
  ⟨serInv_mono (fun _ _ => rfl) ((serRun_invariant fuel).1 .convert v hv),
   serInv_mono (fun _ _ => rfl) ((serRun_invariant fuel).1 .evToDict v hv)⟩

theorem C9_witness :
    goodAll c9Good = true ∧
    (serOk (convertValue 32 c9Good) = true ∧ serOk (eventToDict 32 c9Good) = true) :=
  ⟨by decide, C9_serializers_never_raise c9Good 32 (by decide)⟩

end Darcy
